import Mathlib

/- Shallow embedding of the counting-contract CosmWasm contract family
   (current generation: src/counting-contract-0.3), covering the data model,
   the storage layout, the execute entry points (donate, reset, withdraw,
   withdraw_to), instantiation and the migration cascade.  Machine integers
   (u64 counters and countdowns, Uint128 coin amounts) are modelled as Nat
   with explicit bound checks at exactly the spots where the Rust arithmetic
   can overflow; the crates are built with overflow checks, so wrap-around
   aborts the call.  Fallible host calls return Except. -/

/-- Coin from cosmwasm_std: a denomination string paired with a Uint128
amount (modelled as Nat; amounts written by this contract stay below
2 ^ 128). -/
structure Coin where
  denom : String
  amount : Nat
  deriving Repr, DecidableEq

/-- Decimal from cosmwasm_std: a fixed-point number with 18 fractional
digits, backed by a Uint128 count of atomics. -/
structure Decimal where
  atomics : Nat
  deriving Repr, DecidableEq

/-- State record of counting-contract-0.3 (src/counting-contract-0.3,
struct State): the composite record stored under the single composite
storage key. -/
structure State where
  counter : Nat
  minimal_donation : Coin
  owner : String
  donating_parent : Option Nat
  deriving Repr, DecidableEq

/-- OldState: the 0.2-generation composite record (struct OldState inside
migrate_0_2_0): the same three leading fields, no donating_parent. -/
structure OldState where
  counter : Nat
  minimal_donation : Coin
  owner : String
  deriving Repr, DecidableEq

/-- ParentDonation record of counting-contract-0.3: forwarding target,
countdown reset period and the balance fraction forwarded. -/
structure ParentDonation where
  address : String
  donating_parent_period : Nat
  part : Decimal
  deriving Repr, DecidableEq

/-- Parent payload of the instantiate and migrate messages
(src/counting-contract-0.3/src/msg.rs). -/
structure Parent where
  addr : String
  donating_period : Nat
  part : Decimal
  deriving Repr, DecidableEq

/-- ContractVersion from cw2: the version marker stored under the cw2 key,
a contract name paired with a semantic version string. -/
structure ContractVersion where
  contract : String
  version : String
  deriving Repr, DecidableEq

/-- MessageInfo from cosmwasm_std: the caller identity and the funds
attached to the call. -/
structure MessageInfo where
  sender : String
  funds : List Coin
  deriving Repr, DecidableEq

/-- Env from cosmwasm_std, reduced to the only field the contract reads:
its own address (env.contract.address). -/
structure Env where
  contract_address : String
  deriving Repr, DecidableEq

/-- StdError from cosmwasm_std, reduced to the variants this contract can
produce: a missing storage record, or a record that fails to deserialize
at the expected type. -/
inductive StdError where
  | notFound (kind : String)
  | parseErr (kind : String)
  deriving Repr, DecidableEq

/-- ContractError of counting-contract-0.3 (src error module, visible
through its uses in contract.rs). -/
inductive ContractError where
  | Std (error : StdError)
  | Unauthorized (owner : String)
  | InvalidContract (contract : String)
  | InvalidContractVersion (version : String)
  deriving Repr, DecidableEq

/-- Failure of the donate entry point: a storage error propagated through
StdResult, or a u64 or Uint128 arithmetic overflow aborting the call (the
Rust build has overflow checks, so `state.counter += 1` and `*parent -= 1`
panic instead of wrapping). -/
inductive DonateErr where
  | std (error : StdError)
  | overflow
  deriving Repr, DecidableEq

/-- Payload of the nested wasm execute message emitted by the forwarding
branch of donate: to_binary(&ExecMsg::Donate \x7b\x7d). -/
inductive ExecPayload where
  | Donate
  deriving Repr, DecidableEq

/-- Outbound messages the contract emits: BankMsg::Send and
WasmMsg::Execute. -/
inductive CosmosMsg where
  | bankSend (to_address : String) (amount : List Coin)
  | wasmExecute (contract_addr : String) (msg : ExecPayload) (funds : List Coin)
  deriving Repr, DecidableEq

/-- Response from cosmwasm_std: the ordered outbound messages and the
observability attributes of a call. -/
structure Response where
  messages : List CosmosMsg
  attributes : List (String × String)
  deriving Repr, DecidableEq

/-- Response::new(). -/
def Response.new : Response := ⟨[], []⟩

/-- Response::add_message. -/
def Response.add_message (r : Response) (m : CosmosMsg) : Response :=
  ⟨r.messages ++ [m], r.attributes⟩

/-- Response::add_attribute. -/
def Response.add_attribute (r : Response) (key value : String) : Response :=
  ⟨r.messages, r.attributes ++ [(key, value)]⟩

/-- Payload stored under the composite storage key: the bytes deserialize
either as the 0.2 shape (OldState, three fields) or as the current shape
(State, with donating_parent). -/
inductive StateRecord where
  | v0_2 (s : OldState)
  | cur (s : State)
  deriving Repr, DecidableEq

/-- Typed view of the contract key-value store: one slot per storage key
used across the three generations (cw2 marker, the three single-field v0
keys, the composite key, the parent-donation key). -/
structure Storage where
  contract_info : Option ContractVersion
  counter : Option Nat
  minimal_donation : Option Coin
  owner : Option String
  state : Option StateRecord
  parent_donation : Option ParentDonation
  deriving Repr, DecidableEq

/-- Storage of a freshly created instance: every slot empty. -/
def Storage.empty : Storage := ⟨none, none, none, none, none, none⟩

/-- STATE.load: reads the composite key at the current shape; absent key
is NotFound, a 0.2-shaped record lacks the donating_parent field and fails
to parse. -/
def STATE_load (s : Storage) : Except StdError State :=
  match s.state with
  | some (StateRecord.cur st) => Except.ok st
  | some (StateRecord.v0_2 _) => Except.error (StdError.parseErr "State")
  | none => Except.error (StdError.notFound "State")

/-- STATE.save: unconditional overwrite of the composite key. -/
def STATE_save (s : Storage) (st : State) : Storage :=
  { s with state := some (StateRecord.cur st) }

/-- OLD_STATE.load inside migrate_0_2_0: reads the composite key at the
0.2 shape; a current-shaped record also parses (serde without
deny_unknown_fields drops the extra donating_parent field). -/
def OLD_STATE_load (s : Storage) : Except StdError OldState :=
  match s.state with
  | some (StateRecord.v0_2 old) => Except.ok old
  | some (StateRecord.cur st) => Except.ok ⟨st.counter, st.minimal_donation, st.owner⟩
  | none => Except.error (StdError.notFound "OldState")

/-- PARENT_DONATION.load. -/
def PARENT_DONATION_load (s : Storage) : Except StdError ParentDonation :=
  match s.parent_donation with
  | some pd => Except.ok pd
  | none => Except.error (StdError.notFound "ParentDonation")

/-- PARENT_DONATION.save. -/
def PARENT_DONATION_save (s : Storage) (pd : ParentDonation) : Storage :=
  { s with parent_donation := some pd }

/-- COUNTER.load of the v0 schema (legacy key "counter"). -/
def COUNTER_load (s : Storage) : Except StdError Nat :=
  match s.counter with
  | some c => Except.ok c
  | none => Except.error (StdError.notFound "u64")

/-- MINIMAL_DONATION.load of the v0 schema (legacy key
"minimal_donation"). -/
def MINIMAL_DONATION_load (s : Storage) : Except StdError Coin :=
  match s.minimal_donation with
  | some c => Except.ok c
  | none => Except.error (StdError.notFound "Coin")

/-- OWNER.load of the v0 schema (legacy key "owner"). -/
def OWNER_load (s : Storage) : Except StdError String :=
  match s.owner with
  | some o => Except.ok o
  | none => Except.error (StdError.notFound "Addr")

/-- get_contract_version from cw2: loads the marker item; a missing marker
is a NotFound storage error, not a silent default. -/
def get_contract_version (s : Storage) : Except StdError ContractVersion :=
  match s.contract_info with
  | some cv => Except.ok cv
  | none => Except.error (StdError.notFound "ContractVersion")

/-- set_contract_version from cw2: unconditional overwrite of the marker
item. -/
def set_contract_version (s : Storage) (name version : String) : Storage :=
  { s with contract_info := some ⟨name, version⟩ }

/-- Modelled from the spec: CONTRACT_NAME is env CARGO_PKG_NAME of the
crate; the Cargo manifest is not among the sources.  The spec treats every
generation as the same contract identity, whose concrete name only needs
to be one fixed string. -/
def CONTRACT_NAME : String := "counting-contract"

/-- Modelled from the spec: CONTRACT_VERSION is env CARGO_PKG_VERSION of
the current crate (directory counting-contract-0.3, successor of the
recognized predecessor versions 0.1.0 and 0.2.0 in the migrate match). -/
def CONTRACT_VERSION : String := "0.3.0"

/-- Largest value of a Rust u64. -/
def u64MAX : Nat := 2 ^ 64 - 1

/-- Largest value of a cosmwasm Uint128. -/
def u128MAX : Nat := 2 ^ 128 - 1

/-- Number of atomics in one unit of a cosmwasm Decimal. -/
def DECIMAL_FRACTIONAL : Nat := 10 ^ 18

/-- Uint128 times Decimal from cosmwasm_std: full-width product scaled
down by the fractional base, flooring; the result must fit in Uint128 or
the Rust multiplication panics. -/
def mulDecimal (amount : Nat) (part : Decimal) : Option Nat :=
  let scaled := amount * part.atomics / DECIMAL_FRACTIONAL
  if scaled ≤ u128MAX then some scaled else none

/-- Donation qualification test from exec::donate: the configured
threshold amount is zero, or some attached coin has the threshold
denomination and at least the threshold amount. -/
def meetsThreshold (minimal : Coin) (funds : List Coin) : Bool :=
  minimal.amount == 0 ||
    funds.any (fun coin => coin.denom == minimal.denom && minimal.amount ≤ coin.amount)

/-- Funds forwarded to the parent: every queried balance coin scaled by
the configured part, aborting the call if a scaled amount overflows
Uint128. -/
def forwardFunds (balance : List Coin) (part : Decimal) : Except DonateErr (List Coin) :=
  balance.mapM fun coin =>
    match mulDecimal coin.amount part with
    | some a => Except.ok { coin with amount := a }
    | none => Except.error DonateErr.overflow

/-- Trailing attributes every donate response carries: action, sender and
the post-transition counter rendered as a string. -/
def donateAttrs (resp : Response) (info : MessageInfo) (counter : Nat) : Response :=
  ((resp.add_attribute "action" "donate").add_attribute "sender" info.sender).add_attribute
    "counter" (toString counter)

/-- instantiate of counting-contract-0.3: writes the cw2 marker, saves the
composite State (countdown initialized from the parent payload) and, when
a parent is supplied, the ParentDonation record. -/
def instantiate (storage : Storage) (info : MessageInfo) (counter : Nat)
    (minimal_donation : Coin) (parent : Option Parent) :
    Except StdError (Storage × Response) :=
  let storage := set_contract_version storage CONTRACT_NAME CONTRACT_VERSION
  let storage := STATE_save storage
    { counter := counter
      minimal_donation := minimal_donation
      owner := info.sender
      donating_parent := parent.map fun p => p.donating_period }
  let storage :=
    match parent with
    | some p => PARENT_DONATION_save storage ⟨p.addr, p.donating_period, p.part⟩
    | none => storage
  Except.ok (storage, Response.new)

/-- exec::donate of counting-contract-0.3: on a qualifying donation the
counter is incremented and, when a countdown is configured, decremented by
one; when the countdown hits zero the contract forwards part of its
balance to the parent through a nested Donate call.  Non-qualifying
donations persist nothing.  The u64 increment and decrement carry explicit
overflow aborts. -/
def exec.donate (storage : Storage) (querier : String → List Coin) (env : Env)
    (info : MessageInfo) : Except DonateErr (Storage × Response) :=
  match STATE_load storage with
  | Except.error e => Except.error (DonateErr.std e)
  | Except.ok state =>
    let resp : Response := Response.new
    if meetsThreshold state.minimal_donation info.funds then
      if u64MAX < state.counter + 1 then Except.error DonateErr.overflow else
      let counter1 := state.counter + 1
      match state.donating_parent with
      | none =>
        Except.ok (STATE_save storage { state with counter := counter1 },
          donateAttrs resp info counter1)
      | some parent =>
        if parent = 0 then Except.error DonateErr.overflow else
        let parent1 := parent - 1
        let respE : Except DonateErr Response :=
          if parent1 = 0 then
            match PARENT_DONATION_load storage with
            | Except.error e => Except.error (DonateErr.std e)
            | Except.ok parent_donation =>
              match forwardFunds (querier env.contract_address) parent_donation.part with
              | Except.error e => Except.error e
              | Except.ok funds =>
                Except.ok ((resp.add_message
                  (CosmosMsg.wasmExecute parent_donation.address ExecPayload.Donate
                    funds)).add_attribute "donated_to_parent" parent_donation.address)
          else Except.ok resp
        match respE with
        | Except.error e => Except.error e
        | Except.ok resp =>
          Except.ok (STATE_save storage
            { state with counter := counter1, donating_parent := some parent1 },
            donateAttrs resp info counter1)
    else
      Except.ok (storage, donateAttrs resp info state.counter)

/-- exec::withdraw of counting-contract-0.3: owner-only; emits one bank
transfer of the entire queried balance to the owner and leaves storage
untouched. -/
def exec.withdraw (storage : Storage) (querier : String → List Coin) (env : Env)
    (info : MessageInfo) : Except ContractError (Storage × Response) :=
  match STATE_load storage with
  | Except.error e => Except.error (ContractError.Std e)
  | Except.ok state =>
    if info.sender ≠ state.owner then Except.error (ContractError.Unauthorized state.owner) else
    let balance := querier env.contract_address
    let bank_msg := CosmosMsg.bankSend state.owner balance
    Except.ok (storage, ((Response.new.add_message bank_msg).add_attribute "action"
      "withdraw").add_attribute "sender" info.sender)

/-- exec::withdraw_to of counting-contract-0.3: owner-only; the source
clamps a mutable copy of the queried balance per denomination against the
funds list, but the BankMsg::Send it then builds carries the funds list
itself, not the clamped balance (the clamped copy is dead afterwards). -/
def exec.withdraw_to (storage : Storage) (querier : String → List Coin) (env : Env)
    (info : MessageInfo) (receiver : String) (funds : List Coin) :
    Except ContractError (Storage × Response) :=
  match STATE_load storage with
  | Except.error e => Except.error (ContractError.Std e)
  | Except.ok state =>
    if info.sender ≠ state.owner then Except.error (ContractError.Unauthorized state.owner) else
    let balance := querier env.contract_address
    let _clamped : List Coin :=
      if funds.isEmpty then balance
      else balance.map fun coin =>
        let limit := ((funds.find? fun c => c.denom == coin.denom).map fun c => c.amount).getD 0
        { coin with amount := min coin.amount limit }
    let bank_msg := CosmosMsg.bankSend receiver funds
    Except.ok (storage, ((Response.new.add_message bank_msg).add_attribute "action"
      "withdraw").add_attribute "sender" info.sender)

/-- exec::reset of counting-contract-0.3: owner-only absolute overwrite of
the counter. -/
def exec.reset (storage : Storage) (info : MessageInfo) (counter : Nat) :
    Except ContractError (Storage × Response) :=
  match STATE_load storage with
  | Except.error e => Except.error (ContractError.Std e)
  | Except.ok state =>
    if info.sender ≠ state.owner then Except.error (ContractError.Unauthorized state.owner) else
    Except.ok (STATE_save storage { state with counter := counter },
      ((Response.new.add_attribute "action" "reset").add_attribute "sender"
        info.sender).add_attribute "counter" (toString counter))

/-- migrate_0_1_0 of counting-contract-0.3: reads the three v0 single-field
records and assembles the composite State with no countdown. -/
def migrate_0_1_0 (storage : Storage) : Except StdError (Storage × Response) :=
  match COUNTER_load storage with
  | Except.error e => Except.error e
  | Except.ok counter =>
    match MINIMAL_DONATION_load storage with
    | Except.error e => Except.error e
    | Except.ok minimal_donation =>
      match OWNER_load storage with
      | Except.error e => Except.error e
      | Except.ok owner =>
        Except.ok (STATE_save storage ⟨counter, minimal_donation, owner, none⟩, Response.new)

/-- migrate_0_2_0 of counting-contract-0.3: reads the 0.2-shaped composite
record and rewrites it with donating_parent set to none. -/
def migrate_0_2_0 (storage : Storage) : Except StdError (Storage × Response) :=
  match OLD_STATE_load storage with
  | Except.error e => Except.error e
  | Except.ok old =>
    Except.ok (STATE_save storage ⟨old.counter, old.minimal_donation, old.owner, none⟩,
      Response.new)

/-- migrate of counting-contract-0.3: reads the cw2 marker, rejects foreign
contract names, dispatches on the recorded version (0.1.0 and 0.2.0 run
their upgrader and then rewrite the marker; the current version is a
no-op; anything else is rejected). -/
def migrate (storage : Storage) : Except ContractError (Storage × Response) :=
  match get_contract_version storage with
  | Except.error e => Except.error (ContractError.Std e)
  | Except.ok contract_version =>
    if contract_version.contract ≠ CONTRACT_NAME then
      Except.error (ContractError.InvalidContract contract_version.contract)
    else if contract_version.version = "0.1.0" then
      match migrate_0_1_0 storage with
      | Except.error e => Except.error (ContractError.Std e)
      | Except.ok (storage, resp) =>
        Except.ok (set_contract_version storage CONTRACT_NAME CONTRACT_VERSION, resp)
    else if contract_version.version = "0.2.0" then
      match migrate_0_2_0 storage with
      | Except.error e => Except.error (ContractError.Std e)
      | Except.ok (storage, resp) =>
        Except.ok (set_contract_version storage CONTRACT_NAME CONTRACT_VERSION, resp)
    else if contract_version.version = CONTRACT_VERSION then
      Except.ok (storage, Response.new)
    else
      Except.error (ContractError.InvalidContractVersion contract_version.version)

/-- Modelled from the spec: the per-denomination clamp the withdraw_to
description prescribes for a non-empty funds limit: each balance coin is
capped at the matching limit amount, zero when its denomination is absent
from the limit list. -/
def specClampedBalance (balance funds : List Coin) : List Coin :=
  balance.map fun coin =>
    { coin with
      amount := min coin.amount
        (((funds.find? fun c => c.denom == coin.denom).map fun c => c.amount).getD 0) }

/-- Environment used by the concrete evaluations: the contract runs at a
fixed address. -/
def envT : Env := ⟨"contract"⟩

/-- Querier reporting an empty bank balance for every account. -/
def qE : String → List Coin := fun _ => []

/-- Concrete storage for the withdraw_to evaluation: an instantiated
contract owned by "owner". -/
def storC1 : Storage :=
  { Storage.empty with state := some (StateRecord.cur ⟨0, ⟨"atom", 10⟩, "owner", none⟩) }

/-- Concrete v0-layout storage carrying no cw2 marker: the layout the
0.2-generation instantiate never marks. -/
def storC9 : Storage := ⟨none, some 10, some ⟨"atom", 10⟩, some "owner", none, none⟩

/-- Concrete storage for the donate counterexample: a qualifying state
whose countdown already sits at zero (persisted by a previous forwarding
cycle). -/
def storC2 : Storage :=
  { Storage.empty with
    state := some (StateRecord.cur ⟨5, ⟨"atom", 0⟩, "owner", some 0⟩),
    parent_donation := some ⟨"parent", 3, ⟨1⟩⟩ }

/-- Concrete storage for the donate witness: threshold 5 atom, no parent
configured. -/
def storW2 : Storage :=
  { Storage.empty with state := some (StateRecord.cur ⟨3, ⟨"atom", 5⟩, "owner", none⟩) }

/-- Concrete storage for the countdown evaluation: one cycle left before
the forwarding event, reset period 5, part one. -/
def storC5 : Storage :=
  { Storage.empty with
    state := some (StateRecord.cur ⟨0, ⟨"atom", 0⟩, "owner", some 1⟩),
    parent_donation := some ⟨"parent", 5, ⟨1000000000000000000⟩⟩ }

/-- Storage persisted by the qualifying donate on storC5: counter bumped,
countdown stored at zero. -/
def storC5a : Storage :=
  { storC5 with state := some (StateRecord.cur ⟨1, ⟨"atom", 0⟩, "owner", some 0⟩) }

/-- Storage produced by instantiating with a parent whose donating period
is one. -/
def stor10a : Storage :=
  ⟨some ⟨CONTRACT_NAME, CONTRACT_VERSION⟩, none, none, none,
   some (StateRecord.cur ⟨0, ⟨"atom", 0⟩, "owner", some 1⟩),
   some ⟨"parent", 1, ⟨500000000000000000⟩⟩⟩

/-- Storage persisted by the first qualifying donate on stor10a: the
forwarding event fired and the countdown was stored at zero. -/
def stor10b : Storage :=
  { stor10a with state := some (StateRecord.cur ⟨1, ⟨"atom", 0⟩, "owner", some 0⟩) }

/-- C1: the emitted bank transfer of withdraw_to is not the clamped
balance.  With the contract balance at 3 atom and a funds limit of 5 atom,
the owner call succeeds and the BankMsg::Send carries the raw limit list
of 5 atom, exceeding the balance, while the per-denomination clamp the
spec prescribes evaluates to 3 atom.  The source computes exactly this
clamp into a mutable balance copy and then discards it. -/
theorem C1_withdraw_to_sends_raw_limit :
    exec.withdraw_to storC1 (fun _ => [⟨"atom", 3⟩]) envT ⟨"owner", []⟩ "receiver"
        [⟨"atom", 5⟩] =
      Except.ok (storC1,
        ⟨[CosmosMsg.bankSend "receiver" [⟨"atom", 5⟩]],
         [("action", "withdraw"), ("sender", "owner")]⟩) ∧
    specClampedBalance [⟨"atom", 3⟩] [⟨"atom", 5⟩] = [⟨"atom", 3⟩] ∧ ¬ (5 ≤ 3) :=
  ⟨rfl, rfl, by decide⟩

/-- C3: every caller other than the stored owner is rejected by reset,
withdraw and withdraw_to with Unauthorized carrying the owner identity;
the error return aborts the call, so nothing is persisted and no message
is emitted. -/
theorem C3_unauthorized (storage : Storage) (querier : String → List Coin) (env : Env)
    (info : MessageInfo) (counter : Nat) (receiver : String) (funds : List Coin) (st : State)
    (h : STATE_load storage = Except.ok st) (hs : info.sender ≠ st.owner) :
    exec.reset storage info counter = Except.error (ContractError.Unauthorized st.owner) ∧
    exec.withdraw storage querier env info = Except.error (ContractError.Unauthorized st.owner) ∧
    exec.withdraw_to storage querier env info receiver funds =
      Except.error (ContractError.Unauthorized st.owner) := by
  refine ⟨?_, ?_, ?_⟩ <;> simp [exec.reset, exec.withdraw, exec.withdraw_to, h, hs]

/-- Witness for C3 at a concrete non-owner caller. -/
theorem C3_unauthorized_witness :
    exec.reset storC1 ⟨"member", []⟩ 10 =
      Except.error (ContractError.Unauthorized "owner") ∧
    exec.withdraw storC1 qE envT ⟨"member", []⟩ =
      Except.error (ContractError.Unauthorized "owner") ∧
    exec.withdraw_to storC1 qE envT ⟨"member", []⟩ "member" [] =
      Except.error (ContractError.Unauthorized "owner") :=
  C3_unauthorized storC1 qE envT ⟨"member", []⟩ 10 "member" []
    ⟨0, ⟨"atom", 10⟩, "owner", none⟩ rfl (by decide)

/-- C4: an owner call of withdraw succeeds, emits exactly one outbound
message, a bank transfer of the entire queried balance to the owner, and
returns the storage unchanged. -/
theorem C4_withdraw_entire_balance (storage : Storage) (querier : String → List Coin)
    (env : Env) (info : MessageInfo) (st : State)
    (h : STATE_load storage = Except.ok st) (hs : info.sender = st.owner) :
    exec.withdraw storage querier env info =
      Except.ok (storage,
        ⟨[CosmosMsg.bankSend st.owner (querier env.contract_address)],
         [("action", "withdraw"), ("sender", info.sender)]⟩) := by
  simp [exec.withdraw, h, hs, Response.new, Response.add_message, Response.add_attribute]

/-- Witness for C4: the owner withdraws a two-denomination balance in
full. -/
theorem C4_withdraw_entire_balance_witness :
    exec.withdraw storC1 (fun _ => [⟨"atom", 7⟩, ⟨"uscrt", 2⟩]) envT ⟨"owner", []⟩ =
      Except.ok (storC1,
        ⟨[CosmosMsg.bankSend "owner" [⟨"atom", 7⟩, ⟨"uscrt", 2⟩]],
         [("action", "withdraw"), ("sender", "owner")]⟩) :=
  C4_withdraw_entire_balance storC1 (fun _ => [⟨"atom", 7⟩, ⟨"uscrt", 2⟩]) envT
    ⟨"owner", []⟩ ⟨0, ⟨"atom", 10⟩, "owner", none⟩ rfl rfl

/-- C6: migrating any storage in the v0 single-field layout (marker at
version 0.1.0 with the contract name, legacy counter, minimal_donation and
owner records, no ParentDonation) succeeds, assembles the composite State
from exactly the legacy values with donating_parent none, and leaves the
ParentDonation slot absent; the marker is rewritten to the current
version. -/
theorem C6_migrate_v0 (c : Nat) (md : Coin) (o : String) (sr : Option StateRecord) :
    migrate ⟨some ⟨CONTRACT_NAME, "0.1.0"⟩, some c, some md, some o, sr, none⟩ =
      Except.ok (⟨some ⟨CONTRACT_NAME, CONTRACT_VERSION⟩, some c, some md, some o,
        some (StateRecord.cur ⟨c, md, o, none⟩), none⟩, Response.new) := by
  simp [migrate, get_contract_version, migrate_0_1_0, COUNTER_load, MINIMAL_DONATION_load,
    OWNER_load, STATE_save, set_contract_version, CONTRACT_NAME, CONTRACT_VERSION]

/-- C7: migrating a storage whose marker already carries the current
contract name and version is a success and a strict no-op: the very same
storage is returned with an empty response. -/
theorem C7_migrate_current_noop (storage : Storage)
    (h : storage.contract_info = some ⟨CONTRACT_NAME, CONTRACT_VERSION⟩) :
    migrate storage = Except.ok (storage, Response.new) := by
  simp [migrate, get_contract_version, h, CONTRACT_NAME, CONTRACT_VERSION]

/-- Witness for C7 on a fully populated current-layout storage. -/
theorem C7_migrate_current_noop_witness :
    migrate ⟨some ⟨CONTRACT_NAME, CONTRACT_VERSION⟩, none, none, none,
        some (StateRecord.cur ⟨4, ⟨"atom", 10⟩, "owner", none⟩), none⟩ =
      Except.ok (⟨some ⟨CONTRACT_NAME, CONTRACT_VERSION⟩, none, none, none,
        some (StateRecord.cur ⟨4, ⟨"atom", 10⟩, "owner", none⟩), none⟩, Response.new) :=
  C7_migrate_current_noop ⟨some ⟨CONTRACT_NAME, CONTRACT_VERSION⟩, none, none, none,
    some (StateRecord.cur ⟨4, ⟨"atom", 10⟩, "owner", none⟩), none⟩ rfl

/-- C8: a marker naming a foreign contract makes migrate fail with
InvalidContract carrying that name, and a marker with the right name but a
version that is neither a known predecessor nor the current version makes
it fail with InvalidContractVersion carrying that version; the error
return aborts the call, so no record is modified. -/
theorem C8_migrate_rejects (storage : Storage) (name ver : String)
    (h : storage.contract_info = some ⟨name, ver⟩) :
    (name ≠ CONTRACT_NAME → migrate storage = Except.error (ContractError.InvalidContract name)) ∧
    (name = CONTRACT_NAME → ver ≠ "0.1.0" → ver ≠ "0.2.0" → ver ≠ CONTRACT_VERSION →
      migrate storage = Except.error (ContractError.InvalidContractVersion ver)) := by
  constructor
  · intro hn
    simp [migrate, get_contract_version, h, hn]
  · intro hn h1 h2 h3
    subst hn
    simp [migrate, get_contract_version, h, h1, h2, h3]

/-- Witness for C8: a marker of an unrelated contract is rejected, and so
is an unknown version of this contract. -/
theorem C8_migrate_rejects_witness :
    (("other-contract" : String) ≠ CONTRACT_NAME →
      migrate ⟨some ⟨"other-contract", "0.1.0"⟩, none, none, none, none, none⟩ =
        Except.error (ContractError.InvalidContract "other-contract")) ∧
    (("other-contract" : String) = CONTRACT_NAME → ("0.1.0" : String) ≠ "0.1.0" →
      ("0.1.0" : String) ≠ "0.2.0" → ("0.1.0" : String) ≠ CONTRACT_VERSION →
      migrate ⟨some ⟨"other-contract", "0.1.0"⟩, none, none, none, none, none⟩ =
        Except.error (ContractError.InvalidContractVersion "0.1.0")) :=
  C8_migrate_rejects ⟨some ⟨"other-contract", "0.1.0"⟩, none, none, none, none, none⟩
    "other-contract" "0.1.0" rfl

/-- C9 counterexample: on a storage with no version marker, migrate fails
with the NotFound error of the cw2 marker read instead of assuming the
oldest schema, although the same storage carries a complete v0 layout that
the v0 upgrader handles fine. -/
theorem C9_missing_marker_cex :
    migrate storC9 = Except.error (ContractError.Std (StdError.notFound "ContractVersion")) ∧
    migrate_0_1_0 storC9 =
      Except.ok ({ storC9 with
        state := some (StateRecord.cur ⟨10, ⟨"atom", 10⟩, "owner", none⟩) }, Response.new) :=
  ⟨rfl, rfl⟩

/-- C9 amended: migrate propagates the NotFound failure of the marker read
whenever no version marker record is present; the call aborts and no
record is modified. -/
theorem C9_missing_marker_fails (storage : Storage) (h : storage.contract_info = none) :
    migrate storage = Except.error (ContractError.Std (StdError.notFound "ContractVersion")) := by
  simp [migrate, get_contract_version, h]

/-- Witness for the amended C9 on the concrete markerless v0 storage. -/
theorem C9_missing_marker_fails_witness :
    migrate storC9 = Except.error (ContractError.Std (StdError.notFound "ContractVersion")) :=
  C9_missing_marker_fails storC9 rfl

/-- Helper: whenever a qualifying donate call returns success, the storage
it persisted is the loaded state with the counter incremented by one and
the countdown, when configured, decremented by one. -/
theorem donate_ok_storage (storage : Storage) (querier : String → List Coin) (env : Env)
    (info : MessageInfo) (st : State) (storage1 : Storage) (resp : Response)
    (h : STATE_load storage = Except.ok st)
    (hm : meetsThreshold st.minimal_donation info.funds = true)
    (hok : exec.donate storage querier env info = Except.ok (storage1, resp)) :
    storage1 = STATE_save storage
      { st with
        counter := st.counter + 1
        donating_parent := st.donating_parent.map fun n => n - 1 } := by
  obtain ⟨c0, md0, o0, dp0⟩ := st
  cases dp0 with
  | none =>
    simp only [exec.donate, h, hm, if_true] at hok
    by_cases hov : u64MAX < c0 + 1
    · rw [if_pos hov] at hok
      exact absurd hok (by simp)
    · rw [if_neg hov] at hok
      simp only [Except.ok.injEq, Prod.mk.injEq] at hok
      simp [← hok.1, Option.map]
  | some parent =>
    simp only [exec.donate, h, hm, if_true] at hok
    by_cases hov : u64MAX < c0 + 1
    · rw [if_pos hov] at hok
      exact absurd hok (by simp)
    · rw [if_neg hov] at hok
      by_cases hz : parent = 0
      · rw [if_pos hz] at hok
        exact absurd hok (by simp)
      · rw [if_neg hz] at hok
        by_cases h1 : parent - 1 = 0
        · rw [if_pos h1] at hok
          cases hpd : PARENT_DONATION_load storage with
          | error e =>
            simp only [hpd] at hok
            exact absurd hok (by simp)
          | ok pd =>
            simp only [hpd] at hok
            cases hff : forwardFunds (querier env.contract_address) pd.part with
            | error e =>
              simp only [hff] at hok
              exact absurd hok (by simp)
            | ok fs =>
              simp only [hff] at hok
              simp only [Except.ok.injEq, Prod.mk.injEq] at hok
              simp [← hok.1, Option.map]
        · rw [if_neg h1] at hok
          simp only [Except.ok.injEq, Prod.mk.injEq] at hok
          simp [← hok.1, Option.map]

/-- C2 counterexample: in a reachable state whose countdown was persisted
at zero by an earlier forwarding cycle, a qualifying donation (threshold
amount zero) aborts on the unguarded u64 decrement instead of succeeding,
so the stored counter does not change although the threshold is met. -/
theorem C2_donate_cex :
    meetsThreshold (⟨"atom", 0⟩ : Coin) [] = true ∧
    exec.donate storC2 qE envT ⟨"sender", []⟩ = Except.error DonateErr.overflow ∧
    STATE_load storC2 = Except.ok ⟨5, ⟨"atom", 0⟩, "owner", some 0⟩ :=
  ⟨rfl, rfl, rfl⟩

/-- C2 amended: a non-qualifying donate call always succeeds and persists
nothing, and every donate call that returns success stored a counter equal
to the previous counter plus one exactly when the donation qualifies
(qualifying calls can instead abort on u64 overflow of the counter
increment or underflow of the countdown decrement, in which case nothing
is stored). -/
theorem C2_donate_threshold (storage : Storage) (querier : String → List Coin) (env : Env)
    (info : MessageInfo) (st : State) (h : STATE_load storage = Except.ok st) :
    (meetsThreshold st.minimal_donation info.funds = false →
      exec.donate storage querier env info =
        Except.ok (storage, donateAttrs Response.new info st.counter)) ∧
    (∀ storage1 resp, exec.donate storage querier env info = Except.ok (storage1, resp) →
      ∃ st1, STATE_load storage1 = Except.ok st1 ∧
        (st1.counter = st.counter + 1 ↔
          meetsThreshold st.minimal_donation info.funds = true)) := by
  constructor
  · intro hm
    simp [exec.donate, h, hm]
  · intro storage1 resp hok
    by_cases hm : meetsThreshold st.minimal_donation info.funds = true
    · have hst := donate_ok_storage storage querier env info st storage1 resp h hm hok
      subst hst
      refine ⟨_, rfl, ?_⟩
      simpa using hm
    · have hm' : meetsThreshold st.minimal_donation info.funds = false := by
        simpa using hm
      have hdone : exec.donate storage querier env info =
          Except.ok (storage, donateAttrs Response.new info st.counter) := by
        simp [exec.donate, h, hm']
      rw [hdone] at hok
      simp only [Except.ok.injEq, Prod.mk.injEq] at hok
      refine ⟨st, ?_, ?_⟩
      · rw [← hok.1]; exact h
      · simp [hm']

/-- Witness for the amended C2 on a concrete non-qualifying call
(threshold 5 atom, no funds attached). -/
theorem C2_donate_threshold_witness :
    (meetsThreshold (⟨"atom", 5⟩ : Coin) [] = false →
      exec.donate storW2 qE envT ⟨"alice", []⟩ =
        Except.ok (storW2, donateAttrs Response.new ⟨"alice", []⟩ 3)) ∧
    (∀ storage1 resp, exec.donate storW2 qE envT ⟨"alice", []⟩ =
        Except.ok (storage1, resp) →
      ∃ st1, STATE_load storage1 = Except.ok st1 ∧
        (st1.counter = 3 + 1 ↔ meetsThreshold (⟨"atom", 5⟩ : Coin) [] = true)) :=
  C2_donate_threshold storW2 qE envT ⟨"alice", []⟩ ⟨3, ⟨"atom", 5⟩, "owner", none⟩ rfl

/-- C5 counterexample: a qualifying donation one cycle before the
forwarding event (countdown some 1, configured reset period 5) persists
the countdown at some 0, not at the period. -/
theorem C5_countdown_cex :
    exec.donate storC5 (fun _ => [⟨"atom", 10⟩]) envT ⟨"sender", []⟩ =
      Except.ok (storC5a,
        ⟨[CosmosMsg.wasmExecute "parent" ExecPayload.Donate [⟨"atom", 10⟩]],
         [("donated_to_parent", "parent"), ("action", "donate"), ("sender", "sender"),
          ("counter", "1")]⟩) ∧
    PARENT_DONATION_load storC5 = Except.ok ⟨"parent", 5, ⟨1000000000000000000⟩⟩ ∧
    STATE_load storC5a = Except.ok ⟨1, ⟨"atom", 0⟩, "owner", some 0⟩ ∧
    (some 0 : Option Nat) ≠ some 5 :=
  ⟨rfl, rfl, rfl, by decide⟩

/-- C5 amended: after any successful qualifying donate call in a state
with countdown some 1 (the cycle in which the forwarding event fires), the
persisted countdown is some 0 — the source never rewrites it to the
configured ParentDonation period, so the countdown stalls at zero. -/
theorem C5_countdown_stalls (storage : Storage) (querier : String → List Coin) (env : Env)
    (info : MessageInfo) (st : State) (storage1 : Storage) (resp : Response)
    (h : STATE_load storage = Except.ok st)
    (hp : st.donating_parent = some 1)
    (hm : meetsThreshold st.minimal_donation info.funds = true)
    (hok : exec.donate storage querier env info = Except.ok (storage1, resp)) :
    ∃ st1, STATE_load storage1 = Except.ok st1 ∧ st1.donating_parent = some 0 := by
  have hst := donate_ok_storage storage querier env info st storage1 resp h hm hok
  subst hst
  exact ⟨_, rfl, by simp [hp]⟩

/-- Witness for the amended C5 on the concrete forwarding cycle. -/
theorem C5_countdown_stalls_witness :
    ∃ st1, STATE_load storC5a = Except.ok st1 ∧ st1.donating_parent = some 0 :=
  C5_countdown_stalls storC5 (fun _ => [⟨"atom", 10⟩]) envT ⟨"sender", []⟩
    ⟨0, ⟨"atom", 0⟩, "owner", some 1⟩ storC5a
    ⟨[CosmosMsg.wasmExecute "parent" ExecPayload.Donate [⟨"atom", 10⟩]],
     [("donated_to_parent", "parent"), ("action", "donate"), ("sender", "sender"),
      ("counter", "1")]⟩ rfl rfl rfl rfl

/-- C10: the countdown decrement is reachable at zero.  Instantiating with
a parent of donating period one, the first qualifying donation fires the
forwarding event and persists the countdown at some 0; the next qualifying
donation then executes the unguarded u64 subtraction on 0 and the call
aborts with an arithmetic underflow, so donate is not total on reachable
states. -/
theorem C10_countdown_underflow :
    instantiate Storage.empty ⟨"owner", []⟩ 0 ⟨"atom", 0⟩
        (some ⟨"parent", 1, ⟨500000000000000000⟩⟩) = Except.ok (stor10a, Response.new) ∧
    exec.donate stor10a qE envT ⟨"alice", []⟩ =
      Except.ok (stor10b,
        ⟨[CosmosMsg.wasmExecute "parent" ExecPayload.Donate []],
         [("donated_to_parent", "parent"), ("action", "donate"), ("sender", "alice"),
          ("counter", "1")]⟩) ∧
    STATE_load stor10b = Except.ok ⟨1, ⟨"atom", 0⟩, "owner", some 0⟩ ∧
    exec.donate stor10b qE envT ⟨"bob", []⟩ = Except.error DonateErr.overflow :=
  ⟨rfl, rfl, rfl, rfl⟩
